import Mathlib

/-!
Verification development for the linguist portal (FastAPI + Supabase glue).

The Python source is shallowly embedded:
* the external Supabase store is a `Store` of table rows, with the PostgREST
  query combinators used by the code (`eq`, `in_`, `order desc`, `limit`)
  modelled as list operations;
* each network call that may raise is given an explicit failure oracle
  (`Option String`: `some e` means the call raised exception `e`);
* Python dictionaries returned by the auth layer are modelled as association
  lists of `PyVal` values;
* route handlers return a `RouteResponse` mirroring the FastAPI responses the
  handlers construct (redirects, template renders, HTML fragments, cookies).
-/

/-- A row of the `users` table (see `create_user_account` / `handle_oauth_callback`). -/
structure UserRow where
  id : String
  email : String
  user_role : String
  phone_whatsapp : Option String
deriving DecidableEq, Repr

/-- A row of the `projects` table. `created_at` is the ISO timestamp string
written by `db_helpers.create_project`. -/
structure ProjectRow where
  id : Nat
  title : String
  ui_language : String
  target_language : String
  created_by : Option String
  created_at : String
deriving DecidableEq, Repr

/-- A row of the `campaigns` table; `created_at` is an abstract timestamp. -/
structure CampaignRow where
  id : Nat
  project_id : Nat
  created_at : Nat
deriving DecidableEq, Repr

/-- A join row of the `campaign_questions` table. -/
structure CampaignQuestionRow where
  campaign_id : Nat
  question_id : Nat
deriving DecidableEq, Repr

/-- A row of the `questions` table (only its id matters to this code). -/
structure QuestionRow where
  id : Nat
  input_text : String
deriving DecidableEq, Repr

/-- A row of the `responses` table; `created_at` is an abstract timestamp. -/
structure RespRow where
  id : Nat
  question_id : Nat
  created_at : Nat
deriving DecidableEq, Repr

/-- The external relational store behind the Supabase client. -/
structure Store where
  users : List UserRow
  projects : List ProjectRow
  campaigns : List CampaignRow
  campaign_questions : List CampaignQuestionRow
  questions : List QuestionRow
  responses : List RespRow
  nextProjectId : Nat
deriving Repr

/-- A Supabase auth session (`access_token`, `expires_in`). -/
structure Session where
  access_token : String
  expires_in : Nat
deriving DecidableEq, Repr

/-- A Supabase auth identity (`auth_response.user`). -/
structure AuthUser where
  id : String
  email : String
deriving DecidableEq, Repr

/-- Result of `sign_in_with_password` / `exchange_code_for_session`:
the response object's `session` and `user` attributes, each possibly `None`. -/
structure AuthExchange where
  session : Option Session
  user : Option AuthUser
deriving DecidableEq, Repr

/-- Behaviour of the external Supabase service for one request: the auth
endpoints, plus failure oracles for the `users`-table queries issued from the
auth layer. `Except.error e` / `some e` means the client call raised `e`. -/
structure AuthCalls where
  sign_up : String → String → Except String (Option AuthUser)
  sign_in_with_password : String → String → Except String AuthExchange
  get_user : String → Except String (Option AuthUser)
  sign_in_with_oauth : String → Except String (Option String)
  exchange_code_for_session : String → Except String AuthExchange
  users_select_err : String → Option String
  users_insert_err : UserRow → Option String

/-- `order('created_at', desc=True)` on the `responses` table. -/
def sortRespDesc (l : List RespRow) : List RespRow :=
  l.mergeSort fun a b => decide (b.created_at ≤ a.created_at)

/-- `order('created_at', desc=True)` on the `campaigns` table. -/
def sortCampDesc (l : List CampaignRow) : List CampaignRow :=
  l.mergeSort fun a b => decide (b.created_at ≤ a.created_at)

/-- `order('created_at', desc=True)` on the `projects` table (ISO strings
compare lexicographically). -/
def sortProjDesc (l : List ProjectRow) : List ProjectRow :=
  l.mergeSort fun a b => decide (b.created_at ≤ a.created_at)

/-- `db_helpers.get_all_projects`: one `select * order created_at desc` query,
empty list if the call raises (`err = some e`) or returns falsy data. -/
def get_all_projects (s : Store) (err : Option String) : List ProjectRow :=
  match err with
  | some _ => []
  | none =>
    let data := sortProjDesc s.projects
    if data.isEmpty then [] else data

/-- `db_helpers.create_project`: inserts a project row built from the form
fields plus `created_at = datetime.utcnow().isoformat()` (`now`), including
`created_by` only when truthy. Supabase echoes the inserted row, so
`result.data = [row]`; the function returns `result.data[0]` (`some row`) or
`{}` (`none`) and RE-RAISES on failure. -/
def db_create_project (s : Store) (err : Option String)
    (title ui_language target_language : String)
    (created_by : Option String) (now : String) :
    Except String (Option ProjectRow) :=
  match err with
  | some e => .error e
  | none =>
    let row : ProjectRow :=
      { id := s.nextProjectId
        title := title
        ui_language := ui_language
        target_language := target_language
        created_by := match created_by with
          | some c => if c = "" then none else some c
          | none => none
        created_at := now }
    let data : List ProjectRow := [row]
    .ok data.head?

/-- `db_helpers.get_project_campaigns`: one `eq project_id` + `order desc`
query, empty list on failure. -/
def get_project_campaigns (s : Store) (err : Option String)
    (project_id : Nat) : List CampaignRow :=
  match err with
  | some _ => []
  | none =>
    let data := sortCampDesc (s.campaigns.filter fun c => c.project_id == project_id)
    if data.isEmpty then [] else data

/-- `db_helpers.get_all_campaigns`: one `select *, projects(title)` +
`order desc` query, empty list on failure. -/
def get_all_campaigns (s : Store) (err : Option String) : List CampaignRow :=
  match err with
  | some _ => []
  | none =>
    let data := sortCampDesc s.campaigns
    if data.isEmpty then [] else data

/-- A query issued by `get_campaign_responses`, for counting backend round
trips. -/
inductive DbQuery where
  | campaignQuestionsByCampaign (campaign_id : Nat)
  | responsesByQuestionIds (ids : List Nat)
deriving DecidableEq, Repr

/-- `db_helpers.get_campaign_responses`: first resolves the campaign's
question ids from `campaign_questions`; if that list is empty returns `[]`
without a second query; otherwise filters `responses` by those ids, newest
first. Returns the rows together with the trace of queries issued; `err1` /
`err2` are the failure oracles of the two queries. -/
def get_campaign_responses (s : Store) (err1 err2 : Option String)
    (campaign_id : Nat) : List RespRow × List DbQuery :=
  let q1 := DbQuery.campaignQuestionsByCampaign campaign_id
  match err1 with
  | some _ => ([], [q1])
  | none =>
    let cqs := s.campaign_questions.filter fun q => q.campaign_id == campaign_id
    let question_ids := if cqs.isEmpty then [] else cqs.map fun q => q.question_id
    if question_ids.isEmpty then ([], [q1])
    else
      let q2 := DbQuery.responsesByQuestionIds question_ids
      match err2 with
      | some _ => ([], [q1, q2])
      | none =>
        let data := sortRespDesc (s.responses.filter fun r => question_ids.contains r.question_id)
        (if data.isEmpty then [] else data, [q1, q2])

/-- `db_helpers.get_all_responses`: one `order created_at desc` + `limit 100`
query, empty list on failure. -/
def get_all_responses (s : Store) (err : Option String) : List RespRow :=
  match err with
  | some _ => []
  | none =>
    let data := (sortRespDesc s.responses).take 100
    if data.isEmpty then [] else data

/-- A Python value appearing in the auth layer's result dictionaries. -/
inductive PyVal where
  | str (s : String)
  | bool (b : Bool)
  | user (u : AuthUser)
  | session (s : Session)
  | pyNone
deriving DecidableEq, Repr

/-- A Python dict, as an association list. -/
def PyDict := List (String × PyVal)

instance : DecidableEq PyDict := by
  unfold PyDict
  infer_instance

/-- `d.get(k)` / `d[k]`: the first binding of `k`, if any. -/
def PyDict.get (d : PyDict) (k : String) : Option PyVal :=
  (d.find? fun p => p.1 == k).map fun p => p.2

/-- `d.get(k, default)` restricted to string values, as used by the routes. -/
def PyDict.getStr (d : PyDict) (k : String) (dflt : String) : String :=
  match d.get k with
  | some (.str s) => s
  | _ => dflt

/-- `auth.create_user_account`: Supabase sign-up, then insert of a local
`users` row with `user_role = "linguist"` keyed by the provider id. Returns
the result dict together with the trace of `users` rows whose insert was
attempted. -/
def create_user_account (calls : AuthCalls) (email password : String)
    (phone : Option String) : PyDict × List UserRow :=
  match calls.sign_up email password with
  | .error e => ([("success", .bool false), ("error", .str e)], [])
  | .ok none => ([("success", .bool false), ("error", .str "Failed to create account")], [])
  | .ok (some au) =>
    let user_data : UserRow :=
      { id := au.id
        email := email
        user_role := "linguist"
        phone_whatsapp := match phone with
          | some p => if p = "" then none else some p
          | none => none }
    match calls.users_insert_err user_data with
    | some e => ([("success", .bool false), ("error", .str e)], [user_data])
    | none => ([("success", .bool true), ("user", .user au)], [user_data])

/-- `auth.login_user`: Supabase password sign-in; uniform result dict. -/
def login_user (calls : AuthCalls) (email password : String) : PyDict :=
  match calls.sign_in_with_password email password with
  | .error e => [("success", .bool false), ("error", .str e)]
  | .ok r =>
    match r.session with
    | some s =>
      [("success", .bool true), ("session", .session s),
        ("user", match r.user with | some u => .user u | none => .pyNone)]
    | none => [("success", .bool false), ("error", .str "Invalid credentials")]

/-- `auth.get_current_user`: read the `access_token` cookie (falsy token means
anonymous), validate it with the provider, then fetch the local `users` row by
the provider id; `None` on any failure. `cookies` is the request's cookie
lookup. -/
def get_current_user (calls : AuthCalls) (s : Store)
    (cookies : String → Option String) : Option UserRow :=
  match cookies "access_token" with
  | none => none
  | some tok =>
    if tok = "" then none
    else
      match calls.get_user tok with
      | .error _ => none
      | .ok none => none
      | .ok (some au) =>
        match calls.users_select_err au.id with
        | some _ => none
        | none => (s.users.filter fun r => r.id == au.id).head?

/-- `auth.redirect_if_not_authenticated` returns a 303 redirect to
`/linguist/login` for a falsy user, else `None`; modelled below after
`RouteResponse` is introduced. Here, just the guard condition. -/
def userIsMissing (user : Option UserRow) : Bool :=
  user.isNone

/-- `auth.get_google_oauth_url`: asks Supabase for the Google OAuth URL with
`redirect_to` built from `NGROK_URL` (default `http://localhost:5017`);
returns the URL string, or `""` when the response has no `url` attribute or
the call raises. -/
def get_google_oauth_url (calls : AuthCalls) (ngrok_url : Option String) : String :=
  let redirect_to := (ngrok_url.getD "http://localhost:5017") ++ "/linguist/auth/callback"
  match calls.sign_in_with_oauth redirect_to with
  | .error _ => ""
  | .ok none => ""
  | .ok (some url) => url

/-- `auth.handle_oauth_callback`: exchange the code for a session; if the
identity has no local `users` row, insert one with `user_role = "linguist"`.
Returns the result dict and the trace of attempted `users` inserts. -/
def handle_oauth_callback (calls : AuthCalls) (s : Store) (code : String) :
    PyDict × List UserRow :=
  match calls.exchange_code_for_session code with
  | .error e => ([("success", .bool false), ("error", .str e)], [])
  | .ok r =>
    match r.session, r.user with
    | some sess, some au =>
      match calls.users_select_err au.id with
      | some e => ([("success", .bool false), ("error", .str e)], [])
      | none =>
        let db_user := s.users.filter fun x => x.id == au.id
        if db_user.isEmpty then
          let user_data : UserRow :=
            { id := au.id, email := au.email, user_role := "linguist", phone_whatsapp := none }
          match calls.users_insert_err user_data with
          | some e => ([("success", .bool false), ("error", .str e)], [user_data])
          | none =>
            ([("success", .bool true), ("session", .session sess), ("user", .user au)],
              [user_data])
        else
          ([("success", .bool true), ("session", .session sess), ("user", .user au)], [])
    | _, _ => ([("success", .bool false), ("error", .str "OAuth callback failed")], [])

/-- A session cookie as set by `Response.set_cookie` in the routes. -/
structure CookieSet where
  key : String
  value : String
  httponly : Bool
  max_age : Nat
  samesite : String
deriving DecidableEq, Repr

/-- A rendered template, with the context fields each route passes. -/
inductive Tmpl where
  | loginPage (error : Option String) (success : Option String)
  | signupPage (error : Option String)
  | projectsPage (projects : List ProjectRow) (user : UserRow) (error : Option String)
  | campaignsPage (campaigns : List CampaignRow) (user : UserRow) (error : Option String)
  | questionsPage (questions : List QuestionRow) (user : UserRow)
  | responsesPage (responses : List RespRow) (user : UserRow) (error : Option String)
deriving DecidableEq, Repr

/-- The response a route handler returns. `pyRaise` marks a dictionary or
attribute access the Python code would crash on (unreachable on the values the
auth layer actually produces). -/
inductive RouteResponse where
  | redirect (url : String) (statusCode : Nat)
  | redirectWithCookie (url : String) (statusCode : Nat) (cookie : CookieSet)
  | redirectDeleteCookie (url : String) (statusCode : Nat) (cookieName : String)
  | page (t : Tmpl)
  | fragment (html : String)
  | jsonUrl (url : String)
  | jsonError (msg : String)
  | pyRaise (msg : String)
deriving DecidableEq, Repr

/-- `auth.redirect_if_not_authenticated`: 303 redirect to `/linguist/login`
for a falsy user, else `None`. -/
def redirect_if_not_authenticated (user : Option UserRow) : Option RouteResponse :=
  if userIsMissing user then some (.redirect "/linguist/login" 303) else none

/-- The `user = get_current_user; redirect = redirect_if_not_authenticated;
if redirect: return redirect` prologue shared by the protected GET routes. -/
def guardAuth (user : Option UserRow) (k : UserRow → RouteResponse) : RouteResponse :=
  match redirect_if_not_authenticated user with
  | some resp => resp
  | none =>
    match user with
    | some u => k u
    | none => .pyRaise "unreachable: user is None but no redirect"

/-- `routes.login` (POST /linguist/login): on success redirect 303 to
`/linguist/projects` with the session cookie; on failure re-render the login
page with the error. -/
def login_route (calls : AuthCalls) (email password : String) : RouteResponse :=
  let result := login_user calls email password
  if result.get "success" = some (.bool true) then
    match result.get "session" with
    | some (.session s) =>
      .redirectWithCookie "/linguist/projects" 303
        { key := "access_token", value := s.access_token, httponly := true,
          max_age := s.expires_in, samesite := "lax" }
    | _ => .pyRaise "AttributeError: session"
  else
    .page (.loginPage (some (result.getStr "error" "Login failed")) none)

/-- `routes.signup` (POST /linguist/signup). Returns the response and the
trace of attempted `users` inserts. -/
def signup_route (calls : AuthCalls) (email password : String)
    (phone : Option String) : RouteResponse × List UserRow :=
  let (result, ins) := create_user_account calls email password phone
  if result.get "success" = some (.bool true) then
    (.page (.loginPage none (some "Account created! Please log in.")), ins)
  else
    (.page (.signupPage (some (result.getStr "error" "Signup failed"))), ins)

/-- `routes.logout` (GET /linguist/logout). -/
def logout_route : RouteResponse :=
  .redirectDeleteCookie "/linguist/login" 303 "access_token"

/-- `routes.google_login` (GET /linguist/auth/google). -/
def google_login_route (calls : AuthCalls) (ngrok_url : Option String) : RouteResponse :=
  let url := get_google_oauth_url calls ngrok_url
  if url = "" then .jsonError "Failed to get Google OAuth URL" else .jsonUrl url

/-- `routes.oauth_callback` (GET /linguist/auth/callback): falsy `code`
redirects with `error=no_code`; otherwise exchanges the code, setting the
session cookie on success. Also returns the attempted `users` inserts. -/
def oauth_callback_route (calls : AuthCalls) (s : Store) (code : Option String) :
    RouteResponse × List UserRow :=
  match code with
  | none => (.redirect "/linguist/login?error=no_code" 303, [])
  | some c =>
    if c = "" then (.redirect "/linguist/login?error=no_code" 303, [])
    else
      let (result, ins) := handle_oauth_callback calls s c
      if result.get "success" = some (.bool true) then
        match result.get "session" with
        | some (.session sess) =>
          (.redirectWithCookie "/linguist/projects" 303
            { key := "access_token", value := sess.access_token, httponly := true,
              max_age := sess.expires_in, samesite := "lax" }, ins)
        | _ => (.pyRaise "AttributeError: session", ins)
      else
        (.redirect ("/linguist/login?error=" ++ result.getStr "error" "oauth_failed") 303, ins)

/-- `routes.list_projects` (GET /linguist/projects). -/
def list_projects_route (calls : AuthCalls) (s : Store)
    (cookies : String → Option String) (err : Option String) : RouteResponse :=
  guardAuth (get_current_user calls s cookies) fun u =>
    .page (.projectsPage (get_all_projects s err) u none)

/-- `routes.list_campaigns` (GET /linguist/campaigns). -/
def list_campaigns_route (calls : AuthCalls) (s : Store)
    (cookies : String → Option String) (err : Option String) : RouteResponse :=
  guardAuth (get_current_user calls s cookies) fun u =>
    .page (.campaignsPage (get_all_campaigns s err) u none)

/-- `routes.list_questions` (GET /linguist/questions): renders the questions
template with a hard-coded empty list and no data query. -/
def list_questions_route (calls : AuthCalls) (s : Store)
    (cookies : String → Option String) : RouteResponse :=
  guardAuth (get_current_user calls s cookies) fun u =>
    .page (.questionsPage [] u)

/-- `routes.list_responses` (GET /linguist/responses). -/
def list_responses_route (calls : AuthCalls) (s : Store)
    (cookies : String → Option String) (err : Option String) : RouteResponse :=
  guardAuth (get_current_user calls s cookies) fun u =>
    .page (.responsesPage (get_all_responses s err) u none)

/-- The `<td>{project.get('created_at','')[:10] ...}</td>` cell of the HTMX
fragment. -/
def createdAtCell (created_at : String) : String :=
  if created_at = "" then "N/A" else created_at.take 10

/-- The HTMX table-row fragment returned by `routes.create_project` for a
created project row. -/
def projectRowFragment (p : ProjectRow) : String :=
  "\n        <tr>\n            <td>" ++ toString p.id ++
  "</td>\n            <td>" ++ p.title ++
  "</td>\n            <td>" ++ p.ui_language ++
  "</td>\n            <td>" ++ p.target_language ++
  "</td>\n            <td>" ++ createdAtCell p.created_at ++
  "</td>\n        </tr>\n        "

/-- The same fragment when the insert echoed no row (`project = {}`): every
`get` falls back to its default. -/
def emptyProjectFragment : String :=
  "\n        <tr>\n            <td>N/A</td>\n            <td></td>\n            <td></td>\n            <td></td>\n            <td>N/A</td>\n        </tr>\n        "

/-- `routes.create_project` (POST /linguist/projects): unauthenticated callers
get an inline error row; otherwise insert the project and return the HTMX
fragment, or an error row if the insert raised. -/
def create_project_route (calls : AuthCalls) (s : Store)
    (cookies : String → Option String) (err : Option String)
    (title ui_language target_language now : String) : RouteResponse :=
  match get_current_user calls s cookies with
  | none =>
    .fragment "<tr><td colspan=\"5\" style=\"color: red;\">Not authenticated</td></tr>"
  | some user =>
    match db_create_project s err title ui_language target_language (some user.id) now with
    | .error e =>
      .fragment ("<tr><td colspan=\"5\" style=\"color: red;\">Error: " ++ e ++ "</td></tr>")
    | .ok none => .fragment emptyProjectFragment
    | .ok (some p) => .fragment (projectRowFragment p)

/-- `poc_app.status` (GET /status). -/
def status_route : String :=
  "FastAPI app running"

/-- The return value of an Auth Layer operation, classified by its Python
shape: a dict, a plain string, or an optional user row. -/
inductive AuthRet where
  | dict (d : PyDict)
  | str (s : String)
  | optUser (u : Option UserRow)
deriving DecidableEq

/-- The "uniform `\x7bsuccess, error\x7d` shape" of the spec: a dict carrying a
`success` key. A bare string or an optional row is not of this shape. -/
def isUniformResultShape : AuthRet → Bool
  | .dict d => (d.get "success").isSome
  | _ => false

/-- The classified return of sign-up (`create_user_account`). -/
def signup_op_return (calls : AuthCalls) (email password : String)
    (phone : Option String) : AuthRet :=
  .dict (create_user_account calls email password phone).1

/-- The classified return of login (`login_user`). -/
def login_op_return (calls : AuthCalls) (email password : String) : AuthRet :=
  .dict (login_user calls email password)

/-- The classified return of OAuth URL generation (`get_google_oauth_url`):
a plain string. -/
def oauth_url_op_return (calls : AuthCalls) (ngrok_url : Option String) : AuthRet :=
  .str (get_google_oauth_url calls ngrok_url)

/-- The classified return of the OAuth callback exchange
(`handle_oauth_callback`). -/
def oauth_callback_op_return (calls : AuthCalls) (s : Store) (code : String) : AuthRet :=
  .dict (handle_oauth_callback calls s code).1

/-- The classified return of current-user lookup (`get_current_user`): an
optional user row. -/
def current_user_op_return (calls : AuthCalls) (s : Store)
    (cookies : String → Option String) : AuthRet :=
  .optUser (get_current_user calls s cookies)

/-- `n` occurs as a substring of `h`. -/
def strContains (h n : String) : Prop :=
  ∃ a b, h = a ++ n ++ b

/-- A backend whose every call raises a network exception. -/
def downCalls : AuthCalls where
  sign_up := fun _ _ => .error "network down"
  sign_in_with_password := fun _ _ => .error "network down"
  get_user := fun _ => .error "network down"
  sign_in_with_oauth := fun _ => .error "network down"
  exchange_code_for_session := fun _ => .error "network down"
  users_select_err := fun _ => some "network down"
  users_insert_err := fun _ => some "network down"

/-- The provider identity used by the demo backend. -/
def demoAuthUser : AuthUser where
  id := "uid-1"
  email := "ada@example.org"

/-- The provider session used by the demo backend. -/
def demoSession : Session where
  access_token := "tok-1"
  expires_in := 3600

/-- The local `users` row mirroring `demoAuthUser`. -/
def demoUserRow : UserRow where
  id := "uid-1"
  email := "ada@example.org"
  user_role := "linguist"
  phone_whatsapp := none

/-- A healthy backend: sign-up, login and code exchange all succeed with
`demoAuthUser` / `demoSession`; only the token `"tok-1"` validates. -/
def demoCalls : AuthCalls where
  sign_up := fun _ _ => .ok (some demoAuthUser)
  sign_in_with_password := fun _ _ => .ok ⟨some demoSession, some demoAuthUser⟩
  get_user := fun tok => if tok = "tok-1" then .ok (some demoAuthUser) else .ok none
  sign_in_with_oauth := fun _ => .ok (some "https://accounts.example.org/oauth-start")
  exchange_code_for_session := fun _ => .ok ⟨some demoSession, some demoAuthUser⟩
  users_select_err := fun _ => none
  users_insert_err := fun _ => none

/-- A store with no rows at all. -/
def emptyStore : Store where
  users := []
  projects := []
  campaigns := []
  campaign_questions := []
  questions := []
  responses := []
  nextProjectId := 1

/-- A store holding only the demo user. -/
def demoStore : Store :=
  { emptyStore with users := [demoUserRow] }

/-- The demo store with question and response rows present, to witness that
the questions route ignores them. -/
def questionStore : Store :=
  { demoStore with
      questions := [{ id := 7, input_text := "hello" }]
      responses := [{ id := 1, question_id := 7, created_at := 5 }] }

/-- A store whose campaign 1 has exactly one question (id 7). -/
def cqStore : Store :=
  { emptyStore with campaign_questions := [{ campaign_id := 1, question_id := 7 }] }

/-- A request carrying the demo session token. -/
def demoCookies : String → Option String :=
  fun k => if k = "access_token" then some "tok-1" else none

/-- A request with no cookies. -/
def noCookies : String → Option String :=
  fun _ => none

/-- C1: for every inbound GET to /linguist/projects, /linguist/campaigns,
/linguist/questions or /linguist/responses where session resolution yields no
user, the handler returns a 303 redirect to /linguist/login. -/
theorem claim_C1_unauth_redirects (calls : AuthCalls) (s : Store)
    (cookies : String → Option String) (errP errC errR : Option String)
    (h : get_current_user calls s cookies = none) :
    list_projects_route calls s cookies errP = .redirect "/linguist/login" 303 ∧
    list_campaigns_route calls s cookies errC = .redirect "/linguist/login" 303 ∧
    list_questions_route calls s cookies = .redirect "/linguist/login" 303 ∧
    list_responses_route calls s cookies errR = .redirect "/linguist/login" 303 := by
  simp [list_projects_route, list_campaigns_route, list_questions_route,
    list_responses_route, guardAuth, redirect_if_not_authenticated, userIsMissing, h]

/-- Witness for C1: a cookieless request against a failing backend is
redirected on all four collection routes. -/
theorem claim_C1_witness :
    get_current_user downCalls emptyStore noCookies = none ∧
    list_projects_route downCalls emptyStore noCookies none = .redirect "/linguist/login" 303 ∧
    list_campaigns_route downCalls emptyStore noCookies none = .redirect "/linguist/login" 303 ∧
    list_questions_route downCalls emptyStore noCookies = .redirect "/linguist/login" 303 ∧
    list_responses_route downCalls emptyStore noCookies none = .redirect "/linguist/login" 303 :=
  ⟨rfl, claim_C1_unauth_redirects downCalls emptyStore noCookies none none none rfl⟩

/-- C10: an authenticated GET to /linguist/questions renders the questions
template with an empty questions list, for every store whatsoever (no data
query is consulted). -/
theorem claim_C10_questions_always_empty (calls : AuthCalls) (s : Store)
    (cookies : String → Option String) (u : UserRow)
    (h : get_current_user calls s cookies = some u) :
    list_questions_route calls s cookies = .page (.questionsPage [] u) := by
  simp [list_questions_route, guardAuth, redirect_if_not_authenticated, userIsMissing, h]

/-- Witness for C10: even with question and response rows in the store, the
questions page renders with an empty list. -/
theorem claim_C10_witness :
    list_questions_route demoCalls questionStore demoCookies =
      .page (.questionsPage [] demoUserRow) :=
  claim_C10_questions_always_empty demoCalls questionStore demoCookies demoUserRow rfl

/-- C4: the session gate returns nothing without an `access_token` cookie;
with one, it returns the local `users` row matching the provider-resolved
identity, and nothing when the provider rejects the token or no such row
exists. -/
theorem claim_C4_session_gate (calls : AuthCalls) (s : Store)
    (cookies : String → Option String) :
    (cookies "access_token" = none → get_current_user calls s cookies = none) ∧
    (∀ tok e, cookies "access_token" = some tok → calls.get_user tok = .error e →
      get_current_user calls s cookies = none) ∧
    (∀ tok, cookies "access_token" = some tok → calls.get_user tok = .ok none →
      get_current_user calls s cookies = none) ∧
    (∀ tok au, cookies "access_token" = some tok →
      calls.get_user tok = .ok (some au) →
      s.users.filter (fun x => x.id == au.id) = [] →
      get_current_user calls s cookies = none) ∧
    (∀ tok au r rest, cookies "access_token" = some tok → tok ≠ "" →
      calls.get_user tok = .ok (some au) →
      calls.users_select_err au.id = none →
      s.users.filter (fun x => x.id == au.id) = r :: rest →
      get_current_user calls s cookies = some r) ∧
    (∀ r, get_current_user calls s cookies = some r →
      ∃ tok au, cookies "access_token" = some tok ∧
        calls.get_user tok = .ok (some au) ∧ r.id = au.id ∧ r ∈ s.users) := by
  refine ⟨?_, ?_, ?_, ?_, ?_, ?_⟩
  · intro h
    simp [get_current_user, h]
  · intro tok e hc hg
    by_cases ht : tok = ""
    · simp [get_current_user, hc, ht]
    · simp [get_current_user, hc, ht, hg]
  · intro tok hc hg
    by_cases ht : tok = ""
    · simp [get_current_user, hc, ht]
    · simp [get_current_user, hc, ht, hg]
  · intro tok au hc hg hf
    by_cases ht : tok = ""
    · simp [get_current_user, hc, ht]
    · cases hse : calls.users_select_err au.id with
      | some e => simp [get_current_user, hc, ht, hg, hse]
      | none => simp [get_current_user, hc, ht, hg, hse, hf]
  · intro tok au r rest hc ht hg hse hf
    simp [get_current_user, hc, ht, hg, hse, hf]
  · intro r h
    cases hc : cookies "access_token" with
    | none =>
      simp only [get_current_user, hc] at h
      exact Option.noConfusion h
    | some tok =>
      by_cases ht : tok = ""
      · simp only [get_current_user, hc] at h
        rw [if_pos ht] at h
        exact Option.noConfusion h
      · cases hg : calls.get_user tok with
        | error e =>
          simp only [get_current_user, hc, hg] at h
          rw [if_neg ht] at h
          exact Option.noConfusion h
        | ok ou =>
          cases ou with
          | none =>
            simp only [get_current_user, hc, hg] at h
            rw [if_neg ht] at h
            exact Option.noConfusion h
          | some au =>
            cases hse : calls.users_select_err au.id with
            | some e =>
              simp only [get_current_user, hc, hg, hse] at h
              rw [if_neg ht] at h
              exact Option.noConfusion h
            | none =>
              simp only [get_current_user, hc, hg, hse] at h
              rw [if_neg ht] at h
              have hmem : r ∈ s.users.filter fun x => x.id == au.id :=
                List.mem_of_mem_head? (Option.mem_def.mpr h)
              have hparts := List.mem_filter.mp hmem
              refine ⟨tok, au, rfl, hg, ?_, hparts.1⟩
              simpa using hparts.2

/-- Witness for C4: the demo token resolves to the demo user row. -/
theorem claim_C4_witness :
    get_current_user demoCalls demoStore demoCookies = some demoUserRow :=
  (claim_C4_session_gate demoCalls demoStore demoCookies).2.2.2.2.1
    "tok-1" demoAuthUser demoUserRow [] rfl (by decide) rfl rfl rfl

/-- C2: every Data Access Layer read function returns `[]` when its backend
query raises, without propagating (their embeddings return plain lists);
`create_project` alone re-raises the exception. -/
theorem claim_C2_dal_error_handling (s : Store) (e e2 : String) (pid cid : Nat)
    (title ui_language target_language now : String) (created_by : Option String) :
    get_all_projects s (some e) = [] ∧
    get_all_campaigns s (some e) = [] ∧
    get_project_campaigns s (some e) pid = [] ∧
    (get_campaign_responses s (some e) none cid).1 = [] ∧
    (get_campaign_responses s none (some e2) cid).1 = [] ∧
    (get_campaign_responses s (some e) (some e2) cid).1 = [] ∧
    get_all_responses s (some e) = [] ∧
    db_create_project s (some e) title ui_language target_language created_by now =
      .error e := by
  refine ⟨rfl, rfl, rfl, rfl, ?_, rfl, rfl, rfl⟩
  simp only [get_campaign_responses]
  split
  · rfl
  · split
    · rfl
    · rfl

/-- C5: `get_all_responses` returns at most 100 rows, ordered by creation
timestamp descending, for every store and every failure outcome. -/
theorem claim_C5_responses_cap_and_order (s : Store) (err : Option String) :
    (get_all_responses s err).length ≤ 100 ∧
    List.Pairwise (fun a b => b.created_at ≤ a.created_at)
      (get_all_responses s err) := by
  cases err with
  | some e => simp [get_all_responses]
  | none =>
    have h : List.Pairwise
        (fun a b : RespRow => decide (b.created_at ≤ a.created_at) = true)
        (sortRespDesc s.responses) :=
      @List.sorted_mergeSort RespRow
        (fun a b => decide (b.created_at ≤ a.created_at))
        (fun a b c hab hbc =>
          decide_eq_true (Nat.le_trans (of_decide_eq_true hbc) (of_decide_eq_true hab)))
        (fun a b => by simp [Nat.le_total])
        s.responses
    have hsorted : List.Pairwise
        (fun a b : RespRow => b.created_at ≤ a.created_at) (sortRespDesc s.responses) :=
      h.imp fun hx => of_decide_eq_true hx
    simp only [get_all_responses]
    split
    · exact ⟨by simp, List.Pairwise.nil⟩
    · exact ⟨List.length_take_le 100 (sortRespDesc s.responses),
        hsorted.sublist (List.take_sublist 100 (sortRespDesc s.responses))⟩

/-- Counterexample to C7 as stated: for a campaign with no
`campaign_questions` rows, `get_campaign_responses` issues only ONE backend
query, not two (the code returns early when no question ids resolve). -/
theorem claim_C7_counterexample :
    ((get_campaign_responses emptyStore none none 1).2).length ≠ 2 := by
  decide

/-- C7 (amended): `get_campaign_responses` always issues the
`campaign_questions` query first; it issues the second (responses) query,
filtering by the resolved question ids, exactly when the first query
succeeded and resolved a nonempty id list — otherwise it stops after one
query. -/
theorem claim_C7_amended_two_queries (s : Store) (err1 err2 : Option String)
    (cid : Nat) :
    ((get_campaign_responses s err1 err2 cid).2).head? =
      some (.campaignQuestionsByCampaign cid) ∧
    (∀ q qs, err1 = none →
      s.campaign_questions.filter (fun x => x.campaign_id == cid) = q :: qs →
      (get_campaign_responses s err1 err2 cid).2 =
        [.campaignQuestionsByCampaign cid,
          .responsesByQuestionIds ((q :: qs).map fun x => x.question_id)]) ∧
    (err1 = none →
      s.campaign_questions.filter (fun x => x.campaign_id == cid) = [] →
      (get_campaign_responses s err1 err2 cid).2 =
        [.campaignQuestionsByCampaign cid]) ∧
    (∀ e, err1 = some e →
      (get_campaign_responses s err1 err2 cid).2 =
        [.campaignQuestionsByCampaign cid]) := by
  refine ⟨?_, ?_, ?_, ?_⟩
  · cases err1 with
    | some e => rfl
    | none =>
      simp only [get_campaign_responses]
      split
      · rfl
      · split
        · rfl
        · cases err2 with
          | some e => rfl
          | none => rfl
  · intro q qs h1 hf
    subst h1
    simp only [get_campaign_responses, hf]
    cases err2 with
    | some e => rfl
    | none => rfl
  · intro h1 hf
    subst h1
    simp only [get_campaign_responses, hf]
    rfl
  · intro e h1
    subst h1
    rfl

/-- Witness for C7 (amended): a campaign with exactly one question row
issues both queries. -/
theorem claim_C7_witness :
    (get_campaign_responses cqStore none none 1).2 =
      [.campaignQuestionsByCampaign 1, .responsesByQuestionIds [7]] :=
  (claim_C7_amended_two_queries cqStore none none 1).2.1
    { campaign_id := 1, question_id := 7 } [] rfl (by decide)

/-- Counterexample to C3 as stated: OAuth URL generation does NOT return the
uniform dict shape — against a failing backend it returns the bare string
`""`. (Current-user lookup likewise returns an optional row, not a dict.) -/
theorem claim_C3_counterexample :
    oauth_url_op_return downCalls none = .str "" ∧
    isUniformResultShape (oauth_url_op_return downCalls none) = false ∧
    isUniformResultShape (current_user_op_return downCalls emptyStore noCookies) = false := by
  refine ⟨rfl, rfl, rfl⟩

/-- C3 (amended): all five Auth Layer operations are total on every backend
behaviour (exceptions are caught, never propagated), but only sign-up, login
and the OAuth callback return the uniform dict shape carrying a `success`
key; OAuth URL generation returns a bare string and current-user lookup
returns an optional user row. -/
theorem claim_C3_amended_shapes (calls : AuthCalls) (s : Store)
    (email password code : String) (phone ngrok_url : Option String)
    (cookies : String → Option String) :
    isUniformResultShape (signup_op_return calls email password phone) = true ∧
    isUniformResultShape (login_op_return calls email password) = true ∧
    isUniformResultShape (oauth_callback_op_return calls s code) = true ∧
    (∃ u, oauth_url_op_return calls ngrok_url = .str u) ∧
    (∃ r, current_user_op_return calls s cookies = .optUser r) := by
  refine ⟨?_, ?_, ?_, ⟨_, rfl⟩, ⟨_, rfl⟩⟩
  · simp only [signup_op_return, create_user_account]
    split
    · rfl
    · rfl
    · split <;> rfl
  · simp only [login_op_return, login_user]
    split
    · rfl
    · split <;> rfl
  · simp only [oauth_callback_op_return, handle_oauth_callback]
    split
    · rfl
    · split
      · split
        · rfl
        · split
          · split <;> rfl
          · rfl
      · rfl

/-- C6: every local `users` row this system attempts to insert carries
`user_role = "linguist"` and the id of the provider-resolved identity; the
OAuth callback inserts only when no local row with that id exists. -/
theorem claim_C6_inserted_rows (calls : AuthCalls) (s : Store)
    (email password code : String) (phone : Option String) :
    (∀ r, r ∈ (create_user_account calls email password phone).2 →
      r.user_role = "linguist" ∧
      ∃ au, calls.sign_up email password = .ok (some au) ∧ r.id = au.id) ∧
    (∀ r, r ∈ (handle_oauth_callback calls s code).2 →
      r.user_role = "linguist" ∧
      ∃ au, (∃ sess, calls.exchange_code_for_session code = .ok ⟨some sess, some au⟩) ∧
        r.id = au.id ∧ s.users.filter (fun x => x.id == au.id) = []) := by
  constructor
  · intro r hr
    simp only [create_user_account] at hr
    cases hg : calls.sign_up email password with
    | error e => simp [hg] at hr
    | ok ou =>
      cases ou with
      | none => simp [hg] at hr
      | some au =>
        simp only [hg] at hr
        split at hr <;>
        · simp only [List.mem_singleton] at hr
          subst hr
          exact ⟨rfl, au, rfl, rfl⟩
  · intro r hr
    simp only [handle_oauth_callback] at hr
    cases hx : calls.exchange_code_for_session code with
    | error e => simp [hx] at hr
    | ok resp =>
      simp only [hx] at hr
      cases hsess : resp.session with
      | none => simp [hsess] at hr
      | some sess =>
        simp only [hsess] at hr
        cases huser : resp.user with
        | none => simp [huser] at hr
        | some au =>
          simp only [huser] at hr
          split at hr
          · simp at hr
          · split at hr
            · rename_i hdb
              split at hr <;>
              · simp only [List.mem_singleton] at hr
                subst hr
                have hresp : resp = ⟨some sess, some au⟩ := by
                  cases resp
                  simp_all
                exact ⟨rfl, au, ⟨sess, by rw [hresp]⟩, rfl, List.isEmpty_iff.mp hdb⟩
            · simp at hr

/-- Witness for C6: the demo sign-up attempts exactly one row insert, and
that row satisfies the invariants. -/
theorem claim_C6_witness :
    demoUserRow.user_role = "linguist" ∧
    ∃ au, demoCalls.sign_up "ada@example.org" "pw" = .ok (some au) ∧
      demoUserRow.id = au.id :=
  (claim_C6_inserted_rows demoCalls emptyStore "ada@example.org" "pw" "" none).1
    demoUserRow (by decide)

/-- A substring witness at the tail of a concatenation. -/
theorem strContains_tail (a n : String) : strContains (a ++ n) n :=
  ⟨a, "", by simp⟩

/-- Appending on the right preserves substring containment. -/
theorem strContains_append_right (h c n : String) (hc : strContains h n) :
    strContains (h ++ c) n := by
  obtain ⟨a, b, rfl⟩ := hc
  exact ⟨a, b ++ c, by simp [String.append_assoc]⟩

/-- C8: an authenticated POST to /linguist/projects whose insert succeeds
returns an HTML table-row fragment containing the submitted title, UI
language and target language. -/
theorem claim_C8_create_project_fragment (calls : AuthCalls) (s : Store)
    (cookies : String → Option String) (user : UserRow)
    (title ui_language target_language now : String)
    (hauth : get_current_user calls s cookies = some user) :
    ∃ html,
      create_project_route calls s cookies none title ui_language target_language now =
        .fragment html ∧
      strContains html title ∧ strContains html ui_language ∧
      strContains html target_language := by
  refine ⟨projectRowFragment
    { id := s.nextProjectId, title := title, ui_language := ui_language,
      target_language := target_language,
      created_by := if user.id = "" then none else some user.id,
      created_at := now }, ?_, ?_, ?_, ?_⟩
  · simp only [create_project_route, hauth]
    rfl
  · simp only [projectRowFragment]
    apply strContains_append_right
    apply strContains_append_right
    apply strContains_append_right
    apply strContains_append_right
    apply strContains_append_right
    apply strContains_append_right
    apply strContains_append_right
    exact strContains_tail _ _
  · simp only [projectRowFragment]
    apply strContains_append_right
    apply strContains_append_right
    apply strContains_append_right
    apply strContains_append_right
    apply strContains_append_right
    exact strContains_tail _ _
  · simp only [projectRowFragment]
    apply strContains_append_right
    apply strContains_append_right
    apply strContains_append_right
    exact strContains_tail _ _

/-- Witness for C8: a concrete authenticated create returns a fragment
containing the three submitted fields. -/
theorem claim_C8_witness :
    ∃ html,
      create_project_route demoCalls demoStore demoCookies none "Birdsong" "en" "fr"
        "2024-05-01T12:00:00" = .fragment html ∧
      strContains html "Birdsong" ∧ strContains html "en" ∧ strContains html "fr" :=
  claim_C8_create_project_fragment demoCalls demoStore demoCookies demoUserRow
    "Birdsong" "en" "fr" "2024-05-01T12:00:00" rfl

/-- C9: a successful password login, and a successful OAuth callback
exchange, both set the `access_token` cookie (httponly, samesite lax,
max-age = the provider session's expiry) and redirect 303 to
/linguist/projects. -/
theorem claim_C9_session_cookie (calls : AuthCalls) (s : Store)
    (email password c : String) (sess sess2 : Session) (u : Option AuthUser)
    (au : AuthUser) :
    (calls.sign_in_with_password email password = .ok ⟨some sess, u⟩ →
      login_route calls email password =
        .redirectWithCookie "/linguist/projects" 303
          { key := "access_token", value := sess.access_token, httponly := true,
            max_age := sess.expires_in, samesite := "lax" }) ∧
    (c ≠ "" →
      calls.exchange_code_for_session c = .ok ⟨some sess2, some au⟩ →
      calls.users_select_err au.id = none →
      ((s.users.filter fun x => x.id == au.id) = [] →
        calls.users_insert_err
          { id := au.id, email := au.email, user_role := "linguist",
            phone_whatsapp := none } = none) →
      (oauth_callback_route calls s (some c)).1 =
        .redirectWithCookie "/linguist/projects" 303
          { key := "access_token", value := sess2.access_token, httponly := true,
            max_age := sess2.expires_in, samesite := "lax" }) := by
  constructor
  · intro h
    simp only [login_route, login_user, h]
    rfl
  · intro hc hx hse hins
    by_cases hdb : (s.users.filter fun x => x.id == au.id).isEmpty = true
    · have hins2 := hins (List.isEmpty_iff.mp hdb)
      simp only [oauth_callback_route, handle_oauth_callback, hx, hse, hdb, hins2, if_neg hc]
      rfl
    · have hdb2 : (s.users.filter fun x => x.id == au.id).isEmpty = false := by
        simpa using hdb
      simp only [oauth_callback_route, handle_oauth_callback, hx, hse, hdb2, if_neg hc]
      rfl

/-- Witness for C9: the demo login and the demo OAuth callback both set the
session cookie and redirect to the projects page. -/
theorem claim_C9_witness :
    login_route demoCalls "ada@example.org" "pw" =
      .redirectWithCookie "/linguist/projects" 303
        { key := "access_token", value := "tok-1", httponly := true,
          max_age := 3600, samesite := "lax" } ∧
    (oauth_callback_route demoCalls demoStore (some "authcode")).1 =
      .redirectWithCookie "/linguist/projects" 303
        { key := "access_token", value := "tok-1", httponly := true,
          max_age := 3600, samesite := "lax" } :=
  ⟨(claim_C9_session_cookie demoCalls demoStore "ada@example.org" "pw" "authcode"
      demoSession demoSession (some demoAuthUser) demoAuthUser).1 rfl,
    (claim_C9_session_cookie demoCalls demoStore "ada@example.org" "pw" "authcode"
      demoSession demoSession (some demoAuthUser) demoAuthUser).2
      (by decide) rfl rfl (fun _ => rfl)⟩
